import Mathlib

/-!
# AoC 2020 (C++): the driver `main.cpp` and the unit declaration `day_12.h`

A shallow embedding of the two source files.

* `main.cpp` is straight-line code: for each of the five units it includes it
  default-constructs the unit, calls `part_one()`, calls `part_two()`, and (after the
  first four units only) writes `"\n"` with `fmt::print`.  It is embedded as a
  state-passing function over a `World` that holds the text on standard output and a
  log of the steps performed, each with the text it wrote.
* `day_12.h` declares a record `instruction_t` (a `char` opcode and a `ulong` operand),
  a `const` vector of them, and two `void ... const` operations.

The unit headers `day_one.h` .. `day_five.h`, `common.h` and every function body of the
units are not part of the sources at hand; what the embedding needs of them is taken as a
parameter or modelled from the specification, and marked so.
-/

set_option linter.unusedVariables false

namespace AoC2020

/-! ## Data model -/

/-- The solver units the sources name: the five headers included by `main.cpp`
(lines 1-5) and the struct declared in `day_12.h`. -/
inductive UnitName
  | day_one
  | day_two
  | day_three
  | day_four
  | day_five
  | day_12
  deriving DecidableEq, Repr

/-- One observable step of the driver: constructing a unit, calling one of its two
operations, or a write performed by `main` itself through `fmt::print`. -/
inductive Action
  | construct (u : UnitName)
  | part_one (u : UnitName)
  | part_two (u : UnitName)
  | print (s : String)
  deriving DecidableEq, Repr

/-- One entry of the log of a run: the step performed and the text that this step wrote
to standard output.  An entry for a unit operation is written by the operation itself. -/
structure Event where
  action : Action
  text : String
  deriving DecidableEq, Repr

/-- The state the driver threads through: the text written to standard output so far and
the steps performed so far, oldest first. -/
structure World where
  stdout : String
  events : List Event

/-- The actions performed so far, oldest first: the log without the texts. -/
def World.trace (w : World) : List Action := w.events.map Event.action

/-- The world at program start: nothing written, nothing done. -/
def World.init : World := { stdout := "", events := [] }

/-- Modelled from the spec: the headers `day_one.h` .. `day_five.h` and the bodies of the
units are not under src/.  Following sections 3 and 4 of the specification, a unit owns
an input loaded once at construction (`load`), and each of its two operations is a pure
function of that input followed by a print statement (`answer_one`, `answer_two` give the
text written).  All three are parameters of the driver. -/
structure Solver where
  Input : Type
  load : Input
  answer_one : Input → String
  answer_two : Input → String

/-- Default construction `day_x dayX{};`: yields the loaded unit and writes nothing. -/
def Solver.construct (s : Solver) (u : UnitName) (w : World) : s.Input × World :=
  (s.load, { w with events := w.events ++ [{ action := Action.construct u, text := "" }] })

/-- The call `dayX.part_one();`: the unit writes its first answer. -/
def Solver.part_one (s : Solver) (u : UnitName) (self : s.Input) (w : World) : World :=
  { stdout := w.stdout ++ s.answer_one self
    events := w.events ++ [{ action := Action.part_one u, text := s.answer_one self }] }

/-- The call `dayX.part_two();`: the unit writes its second answer. -/
def Solver.part_two (s : Solver) (u : UnitName) (self : s.Input) (w : World) : World :=
  { stdout := w.stdout ++ s.answer_two self
    events := w.events ++ [{ action := Action.part_two u, text := s.answer_two self }] }

/-- The call `fmt::print(str)` with a format string without replacement fields. -/
def fmt_print (str : String) (w : World) : World :=
  { stdout := w.stdout ++ str
    events := w.events ++ [{ action := Action.print str, text := str }] }

/-- The five units `main.cpp` includes, as parameters of the driver. -/
structure Units where
  day_one : Solver
  day_two : Solver
  day_three : Solver
  day_four : Solver
  day_five : Solver

/-- The unit of the driver that a unit name stands for: one of the five that `main.cpp`
includes, and none for `day_12`, which `main.cpp` does not include. -/
def Units.unit? (U : Units) : UnitName → Option Solver
  | UnitName.day_one => some U.day_one
  | UnitName.day_two => some U.day_two
  | UnitName.day_three => some U.day_three
  | UnitName.day_four => some U.day_four
  | UnitName.day_five => some U.day_five
  | UnitName.day_12 => none

/-! ## `main.cpp` -/

/-- The function `int main(int argc, char* argv[])` of `main.cpp`, lines 7-31, statement
by statement.  Control reaches the end of `main` without a `return`, which in C++ is
`return 0;`. -/
def main (argc : Int) (argv : List String) (U : Units) (w : World) : Int × World :=
  let (dayOne, w) := U.day_one.construct UnitName.day_one w
  let w := U.day_one.part_one UnitName.day_one dayOne w
  let w := U.day_one.part_two UnitName.day_one dayOne w
  let w := fmt_print "\n" w
  let (dayTwo, w) := U.day_two.construct UnitName.day_two w
  let w := U.day_two.part_one UnitName.day_two dayTwo w
  let w := U.day_two.part_two UnitName.day_two dayTwo w
  let w := fmt_print "\n" w
  let (dayThree, w) := U.day_three.construct UnitName.day_three w
  let w := U.day_three.part_one UnitName.day_three dayThree w
  let w := U.day_three.part_two UnitName.day_three dayThree w
  let w := fmt_print "\n" w
  let (dayFour, w) := U.day_four.construct UnitName.day_four w
  let w := U.day_four.part_one UnitName.day_four dayFour w
  let w := U.day_four.part_two UnitName.day_four dayFour w
  let w := fmt_print "\n" w
  let (dayFive, w) := U.day_five.construct UnitName.day_five w
  let w := U.day_five.part_one UnitName.day_five dayFive w
  let w := U.day_five.part_two UnitName.day_five dayFive w
  (0, w)

/-- The log of one run of the program, from program start. -/
def mainEvents (argc : Int) (argv : List String) (U : Units) : List Event :=
  (main argc argv U World.init).2.events

/-- The actions of one run of the program, from program start. -/
def mainTrace (argc : Int) (argv : List String) (U : Units) : List Action :=
  (main argc argv U World.init).2.trace

/-- The standard output of one run of the program, from program start. -/
def mainOutput (argc : Int) (argv : List String) (U : Units) : String :=
  (main argc argv U World.init).2.stdout

/-- The exit status of one run of the program. -/
def mainExit (argc : Int) (argv : List String) (U : Units) : Int :=
  (main argc argv U World.init).1

/-- Whether an action is a call of a unit operation (`part_one` or `part_two`). -/
def Action.isUnitOp : Action → Bool
  | Action.part_one _ => true
  | Action.part_two _ => true
  | _ => false

/-- Whether an action is a construction of a unit. -/
def Action.isConstruct : Action → Bool
  | Action.construct _ => true
  | _ => false

/-- Whether an action is a write by `main` itself. -/
def Action.isPrint : Action → Bool
  | Action.print _ => true
  | _ => false

/-- The text a unit writes when `part_one()` and then `part_two()` are called on the
freshly constructed unit, starting from an empty standard output. -/
def Solver.out (s : Solver) (u : UnitName) : String :=
  (s.part_two u s.load (s.part_one u s.load World.init)).stdout

/-- The three log entries of one unit run in full: constructed (nothing written), first
operation on the constructed object, second operation on the constructed object. -/
def unitEvents (s : Solver) (u : UnitName) : List Event :=
  [{ action := Action.construct u, text := "" },
   { action := Action.part_one u, text := s.answer_one s.load },
   { action := Action.part_two u, text := s.answer_two s.load }]

/-- The log entry of one separator write by `main`. -/
def separatorEvent : Event := { action := Action.print "\n", text := "\n" }

/-- The whole trace of `main` as the source lists it. -/
def script : List Action :=
  [Action.construct UnitName.day_one, Action.part_one UnitName.day_one,
   Action.part_two UnitName.day_one, Action.print "\n",
   Action.construct UnitName.day_two, Action.part_one UnitName.day_two,
   Action.part_two UnitName.day_two, Action.print "\n",
   Action.construct UnitName.day_three, Action.part_one UnitName.day_three,
   Action.part_two UnitName.day_three, Action.print "\n",
   Action.construct UnitName.day_four, Action.part_one UnitName.day_four,
   Action.part_two UnitName.day_four, Action.print "\n",
   Action.construct UnitName.day_five, Action.part_one UnitName.day_five,
   Action.part_two UnitName.day_five]

/-- A concrete choice of the five units, for evaluating the driver: unit number k loads
the number k and writes its decimal digit followed by a letter and a line break. -/
def sampleSolver (k : String) : Solver :=
  { Input := String
    load := k
    answer_one := fun i => i ++ "a\n"
    answer_two := fun i => i ++ "b\n" }

/-- Five sample units, numbered 1 to 5. -/
def sampleUnits : Units :=
  { day_one := sampleSolver "1"
    day_two := sampleSolver "2"
    day_three := sampleSolver "3"
    day_four := sampleSolver "4"
    day_five := sampleSolver "5" }

/-! ## `day_12.h` -/

/-- Width in bits of the C++ type `char`. -/
def CHAR_BIT : Nat := 8

/-- Modelled from the spec: the type name `ulong` comes from `common.h` and the system
headers, which are not under src/.  It is read as `unsigned long` on an LP64 platform:
an unsigned integer of 64 bits. -/
def ULONG_BITS : Nat := 64

/-- The struct `day_12::instruction_t` of `day_12.h`, lines 6-11: a `char opcode` (held
as its byte value) and a `ulong operand`, and no other member. -/
structure day_12.instruction_t where
  opcode : Nat
  operand : Nat
  deriving DecidableEq, Repr

/-- Modelled from the spec: the body of the constructor
`instruction_t(char opcode, ulong operand)` is not under src/ (only its declaration,
`day_12.h` line 10).  The specification describes the record as "an operation code and a
numeric operand", so the constructor stores its two arguments in the two members of the
same name.  The arguments arrive converted to the parameter types: reduced modulo the
width of `char` and of `ulong`. -/
def day_12.instruction_t.new (opcode operand : Nat) : day_12.instruction_t :=
  { opcode := opcode % 2 ^ CHAR_BIT, operand := operand % 2 ^ ULONG_BITS }

/-- The struct `day_12` of `day_12.h`: its only data member is
`const std::vector<instruction_t> input`. -/
structure day_12 where
  input : List day_12.instruction_t

/-- What a call of a unit operation hands back to its caller: nothing, for a member
function declared `void`, or a value (an answer, rendered as text). -/
inductive Returned
  | nothing
  | value (v : String)
  deriving DecidableEq, Repr

/-- Modelled from the spec: the bodies of `day_12::part_one` and `day_12::part_two` are
not under src/.  Section 4 of the specification gives each unit "one or two pure
functions mapping the parsed records to a scalar or string answer" and "a print
statement"; the two pure functions, rendered as the text printed, are parameters. -/
structure day_12.Answers where
  first : List day_12.instruction_t → String
  second : List day_12.instruction_t → String

/-- Modelled from the spec: the body of `void part_one() const` (`day_12.h` line 16) is
not under src/.  From the declaration: the result type is `void`, so the call hands back
nothing, and the member function is `const`, so it reads the object and leaves it
unchanged.  From the specification: it prints the first answer, a pure function of the
input. -/
def day_12.part_one (A : day_12.Answers) (self : day_12) (stdout : String) :
    Returned × String :=
  (Returned.nothing, stdout ++ A.first self.input)

/-- Modelled from the spec: the body of `void part_two() const` (`day_12.h` line 18) is
not under src/; see `day_12.part_one`. -/
def day_12.part_two (A : day_12.Answers) (self : day_12) (stdout : String) :
    Returned × String :=
  (Returned.nothing, stdout ++ A.second self.input)

/-- The two operations a caller can invoke on a `day_12` value. -/
inductive day_12.Call
  | part_one
  | part_two
  deriving DecidableEq, Repr

/-- A `day_12` object in use: the object and the standard output it writes to. -/
structure day_12.Session where
  self : day_12
  stdout : String

/-- One call on the object.  Both operations are `const` member functions and `input` is
a `const` member, so the object after the call is the object before it; only standard
output moves on. -/
def day_12.Session.call (A : day_12.Answers) (c : day_12.Call) (s : day_12.Session) :
    day_12.Session :=
  match c with
  | day_12.Call.part_one => { self := s.self, stdout := (s.self.part_one A s.stdout).2 }
  | day_12.Call.part_two => { self := s.self, stdout := (s.self.part_two A s.stdout).2 }

/-- Any sequence of calls, performed left to right. -/
def day_12.Session.run (A : day_12.Answers) :
    List day_12.Call → day_12.Session → day_12.Session
  | [], s => s
  | c :: cs, s => day_12.Session.run A cs (day_12.Session.call A c s)

/-! ## Helper lemmas -/

/-- Running `main` from any world appends to the log the entries of the five units in
order, with a separator entry after each of the first four. -/
theorem main_events_from (argc : Int) (argv : List String) (U : Units) (w : World) :
    (main argc argv U w).2.events =
      w.events ++
        (unitEvents U.day_one UnitName.day_one ++ [separatorEvent] ++
         unitEvents U.day_two UnitName.day_two ++ [separatorEvent] ++
         unitEvents U.day_three UnitName.day_three ++ [separatorEvent] ++
         unitEvents U.day_four UnitName.day_four ++ [separatorEvent] ++
         unitEvents U.day_five UnitName.day_five) := by
  simp [main, Solver.construct, Solver.part_one, Solver.part_two, fmt_print, unitEvents,
    separatorEvent]

/-- From program start the log of `main` is the entries of the five units in order, with
a separator entry after each of the first four. -/
theorem mainEvents_eq (argc : Int) (argv : List String) (U : Units) :
    mainEvents argc argv U =
      unitEvents U.day_one UnitName.day_one ++ [separatorEvent] ++
      unitEvents U.day_two UnitName.day_two ++ [separatorEvent] ++
      unitEvents U.day_three UnitName.day_three ++ [separatorEvent] ++
      unitEvents U.day_four UnitName.day_four ++ [separatorEvent] ++
      unitEvents U.day_five UnitName.day_five := by
  simp [mainEvents, main_events_from, World.init]

/-- Running `main` from any world appends exactly `script` to the trace. -/
theorem main_trace_from (argc : Int) (argv : List String) (U : Units) (w : World) :
    (main argc argv U w).2.trace = w.trace ++ script := by
  simp [World.trace, main_events_from, unitEvents, separatorEvent, script]

/-- From program start the trace of `main` is `script`, whatever the arguments. -/
theorem mainTrace_eq (argc : Int) (argv : List String) (U : Units) :
    mainTrace argc argv U = script := by
  rw [mainTrace, main_trace_from]
  rfl

/-- The exit status of `main` is 0, whatever the arguments. -/
theorem mainExit_eq (argc : Int) (argv : List String) (U : Units) :
    mainExit argc argv U = 0 := by
  simp [mainExit, main]

/-- The text of a unit is its first answer followed by its second. -/
theorem Solver.out_eq (s : Solver) (u : UnitName) :
    s.out u = s.answer_one s.load ++ s.answer_two s.load := by
  simp [Solver.out, Solver.part_one, Solver.part_two, World.init]

/-- A call leaves the object of a session as it was. -/
theorem day_12.Session.call_self (A : day_12.Answers) (c : day_12.Call)
    (s : day_12.Session) : (day_12.Session.call A c s).self = s.self := by
  cases c <;> rfl

/-- Any sequence of calls leaves the object of a session as it was. -/
theorem day_12.Session.run_self (A : day_12.Answers) (calls : List day_12.Call)
    (s : day_12.Session) : (day_12.Session.run A calls s).self = s.self := by
  induction calls generalizing s with
  | nil => rfl
  | cons c cs ih => rw [day_12.Session.run, ih, day_12.Session.call_self]

/-! ## The claims -/

/-- C1: `main` runs the units in the order one, two, three, four, five; each unit is
constructed once, then `part_one` is called once on the constructed object, then
`part_two` once.  The log of the run is, for each unit in that order, its construction
and its two operations, each operation entry carrying the text that this unit computes
from the input its own constructor loaded (with the separator writes of `main` between
units), and the standard output is the concatenation of the logged texts.  Without the
texts the trace is `script`; restricted to unit operations it is the ten calls in order,
with no repetition; restricted to constructions it is the five constructions in order. -/
theorem main_runs_units_in_order (argc : Int) (argv : List String) (U : Units) :
    mainEvents argc argv U =
      [{ action := Action.construct UnitName.day_one, text := "" },
       { action := Action.part_one UnitName.day_one,
         text := U.day_one.answer_one U.day_one.load },
       { action := Action.part_two UnitName.day_one,
         text := U.day_one.answer_two U.day_one.load },
       { action := Action.print "\n", text := "\n" },
       { action := Action.construct UnitName.day_two, text := "" },
       { action := Action.part_one UnitName.day_two,
         text := U.day_two.answer_one U.day_two.load },
       { action := Action.part_two UnitName.day_two,
         text := U.day_two.answer_two U.day_two.load },
       { action := Action.print "\n", text := "\n" },
       { action := Action.construct UnitName.day_three, text := "" },
       { action := Action.part_one UnitName.day_three,
         text := U.day_three.answer_one U.day_three.load },
       { action := Action.part_two UnitName.day_three,
         text := U.day_three.answer_two U.day_three.load },
       { action := Action.print "\n", text := "\n" },
       { action := Action.construct UnitName.day_four, text := "" },
       { action := Action.part_one UnitName.day_four,
         text := U.day_four.answer_one U.day_four.load },
       { action := Action.part_two UnitName.day_four,
         text := U.day_four.answer_two U.day_four.load },
       { action := Action.print "\n", text := "\n" },
       { action := Action.construct UnitName.day_five, text := "" },
       { action := Action.part_one UnitName.day_five,
         text := U.day_five.answer_one U.day_five.load },
       { action := Action.part_two UnitName.day_five,
         text := U.day_five.answer_two U.day_five.load }] ∧
    mainOutput argc argv U = String.join ((mainEvents argc argv U).map Event.text) ∧
    mainTrace argc argv U = script ∧
    (mainTrace argc argv U).filter Action.isUnitOp =
      [Action.part_one UnitName.day_one, Action.part_two UnitName.day_one,
       Action.part_one UnitName.day_two, Action.part_two UnitName.day_two,
       Action.part_one UnitName.day_three, Action.part_two UnitName.day_three,
       Action.part_one UnitName.day_four, Action.part_two UnitName.day_four,
       Action.part_one UnitName.day_five, Action.part_two UnitName.day_five] ∧
    ((mainTrace argc argv U).filter Action.isUnitOp).Nodup ∧
    (mainTrace argc argv U).filter Action.isConstruct =
      [Action.construct UnitName.day_one, Action.construct UnitName.day_two,
       Action.construct UnitName.day_three, Action.construct UnitName.day_four,
       Action.construct UnitName.day_five] := by
  refine ⟨?_, ?_, ?_⟩
  · simp [mainEvents_eq, unitEvents, separatorEvent]
  · rw [mainEvents_eq]
    simp [mainOutput, main, Solver.construct, Solver.part_one, Solver.part_two, fmt_print,
      World.init, unitEvents, separatorEvent, String.join, String.append_assoc]
  · rw [mainTrace_eq]
    exact ⟨rfl, by decide, by decide, by decide⟩

/-- C2, as the claim states it, fails: in a run of `main` the unit `day_12` is not
constructed, and neither of its operations is called. -/
theorem day_12_not_run_by_main :
    Action.construct UnitName.day_12 ∉ mainTrace 1 ["aoc"] sampleUnits ∧
    Action.part_one UnitName.day_12 ∉ mainTrace 1 ["aoc"] sampleUnits ∧
    Action.part_two UnitName.day_12 ∉ mainTrace 1 ["aoc"] sampleUnits := by
  decide

/-- C2, amended: each of the five units that `main.cpp` includes (every unit name that
stands for a unit of the driver, which `day_12` does not) is constructed by `main`
exactly once and has `part_one` and `part_two` called exactly once each, on the object
that this unit's constructor loaded: the log holds exactly one entry for each of the
three steps, and the operation entries carry the text that this very unit computes.  For
`day_12` the three counts are zero. -/
theorem main_runs_exactly_the_included_units (argc : Int) (argv : List String) (U : Units)
    (u : UnitName) (s : Solver) (hu : U.unit? u = some s) :
    u ≠ UnitName.day_12 ∧
    ((mainEvents argc argv U).filter (fun e => decide (e.action = Action.construct u)) =
       [{ action := Action.construct u, text := "" }] ∧
     (mainEvents argc argv U).filter (fun e => decide (e.action = Action.part_one u)) =
       [{ action := Action.part_one u, text := s.answer_one s.load }] ∧
     (mainEvents argc argv U).filter (fun e => decide (e.action = Action.part_two u)) =
       [{ action := Action.part_two u, text := s.answer_two s.load }]) ∧
    ((mainTrace argc argv U).count (Action.construct u) = 1 ∧
     (mainTrace argc argv U).count (Action.part_one u) = 1 ∧
     (mainTrace argc argv U).count (Action.part_two u) = 1) ∧
    (U.unit? UnitName.day_12 = none ∧
     (mainTrace argc argv U).count (Action.construct UnitName.day_12) = 0 ∧
     (mainTrace argc argv U).count (Action.part_one UnitName.day_12) = 0 ∧
     (mainTrace argc argv U).count (Action.part_two UnitName.day_12) = 0) := by
  rw [mainTrace_eq, mainEvents_eq]
  cases u <;> simp only [Units.unit?, Option.some.injEq] at hu
  case day_12 => exact absurd hu (by simp)
  all_goals
    subst hu
    refine ⟨by decide, ?_, by decide, rfl, by decide⟩
    simp [unitEvents, separatorEvent, List.filter]

/-- C2, amended, at a concrete run: the unit `day_three` of the sample units, whose
operations write "3a" and "3b", each on a line. -/
theorem main_runs_exactly_the_included_units_witness :
    sampleUnits.unit? UnitName.day_three = some (sampleSolver "3") ∧
    (mainEvents 1 ["aoc"] sampleUnits).filter
        (fun e => decide (e.action = Action.construct UnitName.day_three)) =
      [{ action := Action.construct UnitName.day_three, text := "" }] ∧
    (mainEvents 1 ["aoc"] sampleUnits).filter
        (fun e => decide (e.action = Action.part_one UnitName.day_three)) =
      [{ action := Action.part_one UnitName.day_three, text := "3a\n" }] ∧
    (mainEvents 1 ["aoc"] sampleUnits).filter
        (fun e => decide (e.action = Action.part_two UnitName.day_three)) =
      [{ action := Action.part_two UnitName.day_three, text := "3b\n" }] :=
  ⟨rfl,
   (main_runs_exactly_the_included_units 1 ["aoc"] sampleUnits UnitName.day_three
     (sampleSolver "3") rfl).2.1⟩

/-- C3: `main` does not look at its command line and does not branch: for any two
command lines and any two choices of what the units compute, the sequence of actions
(constructions, unit operations and separator writes) is the same and the exit status is
the same, namely 0. -/
theorem main_ignores_command_line (argc argc' : Int) (argv argv' : List String)
    (U U' : Units) :
    mainTrace argc argv U = mainTrace argc' argv' U' ∧
    mainExit argc argv U = mainExit argc' argv' U' ∧
    mainExit argc argv U = 0 := by
  simp [mainTrace_eq, mainExit_eq]

/-- C4: the input of a `day_12` value does not change: after any sequence of calls of
`part_one` and `part_two`, in any order and number, the input is the same list of
records: equal as a list, of the same length, with the same opcode and operand at every
index. -/
theorem day_12_input_immutable (A : day_12.Answers) (calls : List day_12.Call)
    (d : day_12) (out : String) :
    (day_12.Session.run A calls { self := d, stdout := out }).self.input = d.input ∧
    (day_12.Session.run A calls { self := d, stdout := out }).self.input.length =
      d.input.length ∧
    ∀ i : Nat,
      ((day_12.Session.run A calls { self := d, stdout := out }).self.input[i]?).map
          day_12.instruction_t.opcode = (d.input[i]?).map day_12.instruction_t.opcode ∧
      ((day_12.Session.run A calls { self := d, stdout := out }).self.input[i]?).map
          day_12.instruction_t.operand = (d.input[i]?).map day_12.instruction_t.operand := by
  rw [day_12.Session.run_self]
  exact ⟨rfl, rfl, fun _ => ⟨rfl, rfl⟩⟩

/-- C6: the standard output of `main` is the five unit outputs joined by a single line
break: a separator after each of the first four units and none after the last.  The
writes of `main` itself are exactly those four separators, and the last action of the
run is the second operation of the fifth unit. -/
theorem main_output_exact (argc : Int) (argv : List String) (U : Units) :
    mainOutput argc argv U =
      U.day_one.out UnitName.day_one ++ "\n" ++ U.day_two.out UnitName.day_two ++ "\n" ++
      U.day_three.out UnitName.day_three ++ "\n" ++ U.day_four.out UnitName.day_four ++
      "\n" ++ U.day_five.out UnitName.day_five ∧
    mainOutput argc argv U =
      String.intercalate "\n"
        [U.day_one.out UnitName.day_one, U.day_two.out UnitName.day_two,
         U.day_three.out UnitName.day_three, U.day_four.out UnitName.day_four,
         U.day_five.out UnitName.day_five] ∧
    (mainTrace argc argv U).filter Action.isPrint =
      [Action.print "\n", Action.print "\n", Action.print "\n", Action.print "\n"] ∧
    (mainTrace argc argv U).getLast? = some (Action.part_two UnitName.day_five) := by
  refine ⟨?_, ?_, ?_, ?_⟩
  · simp [mainOutput, main, Solver.construct, Solver.part_one, Solver.part_two, fmt_print,
      World.init, Solver.out_eq, String.append_assoc]
  · simp [mainOutput, main, Solver.construct, Solver.part_one, Solver.part_two, fmt_print,
      World.init, Solver.out_eq, String.append_assoc, String.intercalate,
      String.intercalate.go]
  · rw [mainTrace_eq]; decide
  · rw [mainTrace_eq]; decide

/-- C7: an instruction record is exactly an opcode and an operand, and construction keeps
both: for a character `c` (a byte) and an unsigned `n` in the range of `ulong`, the
record built has opcode `c` and operand `n`; the operand is not negative and stays in the
range of `ulong`; records built from equal arguments agree field by field; and a record
is determined by its two fields. -/
theorem instruction_t_keeps_fields (c n : Nat) (hc : c < 2 ^ CHAR_BIT)
    (hn : n < 2 ^ ULONG_BITS) :
    (day_12.instruction_t.new c n).opcode = c ∧
    (day_12.instruction_t.new c n).operand = n ∧
    day_12.instruction_t.new c n = { opcode := c, operand := n } ∧
    0 ≤ (day_12.instruction_t.new c n).operand ∧
    (day_12.instruction_t.new c n).operand < 2 ^ ULONG_BITS ∧
    (∀ c' n' : Nat, c' = c → n' = n →
      (day_12.instruction_t.new c' n').opcode = (day_12.instruction_t.new c n).opcode ∧
      (day_12.instruction_t.new c' n').operand = (day_12.instruction_t.new c n).operand) ∧
    (∀ r r' : day_12.instruction_t,
      r.opcode = r'.opcode → r.operand = r'.operand → r = r') := by
  have ho : (day_12.instruction_t.new c n).opcode = c := Nat.mod_eq_of_lt hc
  have hp : (day_12.instruction_t.new c n).operand = n := Nat.mod_eq_of_lt hn
  refine ⟨ho, hp, ?_, Nat.zero_le _, ?_, ?_, ?_⟩
  · show day_12.instruction_t.mk _ _ = _
    congr 1
  · rw [hp]; exact hn
  · rintro c' n' rfl rfl
    exact ⟨rfl, rfl⟩
  · rintro ⟨o, p⟩ ⟨o', p'⟩ h1 h2
    simp only at h1 h2
    subst h1 h2
    rfl

/-- C7 at a concrete record: opcode `F` (byte 70) and operand 10. -/
theorem instruction_t_keeps_fields_witness :
    70 < 2 ^ CHAR_BIT ∧ 10 < 2 ^ ULONG_BITS ∧
    (day_12.instruction_t.new 70 10).opcode = 70 ∧
    (day_12.instruction_t.new 70 10).operand = 10 :=
  ⟨by decide, by decide,
   (instruction_t_keeps_fields 70 10 (by decide) (by decide)).1,
   (instruction_t_keeps_fields 70 10 (by decide) (by decide)).2.1⟩

end AoC2020
